import Mathlib

/-!
Verification of `src/advprog_2020_07/3_stacks/stacks.py`: a stack, several
stack variants, an RPN calculator, a stack machine, and a compiler from
Python `ast` expression trees to stack-machine instructions.

The embedding is a shallow state-passing one: Python objects become Lean
structures, mutation becomes explicit state passing, and a raised exception
becomes `none` in an `Option` result.  Python floats are modelled as exact
rationals; Python ints as `Int`.
-/

namespace Stacks

/-- The values the program pushes on stacks: Python ints, floats (modelled
as exact rationals) and strings (the non-numeric values used by the
type-checking variants). -/
inductive PyVal where
  | int (n : Int)
  | float (q : Rat)
  | str (s : String)
deriving DecidableEq, Repr

/-- Python `isinstance(item, (int, float))`, the check used by
`NumericStack.push` and `NumericStackMixin.push`. -/
def PyVal.isNumeric : PyVal → Bool
  | .int _ => true
  | .float _ => true
  | .str _ => false

/-- Numeric view of a value, for division. -/
def PyVal.toRat : PyVal → Option Rat
  | .int n => some (n : Rat)
  | .float q => some q
  | .str _ => none

/-- Python `+` on the value domain: int/float arithmetic with the usual
promotion, string concatenation; a mixed pair raises `TypeError` (`none`). -/
def pyAdd : PyVal → PyVal → Option PyVal
  | .int a, .int b => some (.int (a + b))
  | .int a, .float b => some (.float ((a : Rat) + b))
  | .float a, .int b => some (.float (a + (b : Rat)))
  | .float a, .float b => some (.float (a + b))
  | .str a, .str b => some (.str (a ++ b))
  | _, _ => none

/-- Python `-` on the value domain. -/
def pySub : PyVal → PyVal → Option PyVal
  | .int a, .int b => some (.int (a - b))
  | .int a, .float b => some (.float ((a : Rat) - b))
  | .float a, .int b => some (.float (a - (b : Rat)))
  | .float a, .float b => some (.float (a - b))
  | _, _ => none

/-- String repetition, Python `s * n` (non-positive counts give the empty
string). -/
def strRepeat (s : String) (n : Int) : String :=
  String.join (List.replicate n.toNat s)

/-- Python `*` on the value domain: numeric product with promotion, and
int-string repetition in either operand order. -/
def pyMul : PyVal → PyVal → Option PyVal
  | .int a, .int b => some (.int (a * b))
  | .int a, .float b => some (.float ((a : Rat) * b))
  | .float a, .int b => some (.float (a * (b : Rat)))
  | .float a, .float b => some (.float (a * b))
  | .int a, .str s => some (.str (strRepeat s a))
  | .str s, .int a => some (.str (strRepeat s a))
  | _, _ => none

/-- Python `/` (true division) on the value domain: always produces a
float, raises `ZeroDivisionError` (`none`) on a zero divisor, `TypeError`
(`none`) on non-numeric operands. -/
def pyDiv (a b : PyVal) : Option PyVal :=
  match a.toRat, b.toRat with
  | some x, some y => if y = 0 then none else some (.float (x / y))
  | _, _ => none

/-- The array-backed mutable stack, `class Stack(StackInterface)`: a Python
list, pushed and popped at its end. -/
structure Stack where
  items : List PyVal
deriving DecidableEq, Repr

/-- `Stack.push`: `self.items.append(item)`. -/
def Stack.push (s : Stack) (item : PyVal) : Stack :=
  ⟨s.items ++ [item]⟩

/-- `Stack.pop`: `return self.items.pop()` — removes and returns the last
element; `list.pop` on an empty list raises `IndexError` (`none`). -/
def Stack.pop (s : Stack) : Option (PyVal × Stack) :=
  match s.items.getLast? with
  | some v => some (v, ⟨s.items.dropLast⟩)
  | none => none

/-- `Stack.__len__`: `len(self.items)`. -/
def Stack.len (s : Stack) : Nat :=
  s.items.length

/-- The persistent stack, `class ImmutableStack(StackInterface)`: `_items`
is a chain of nested pairs `(item, rest)` ending in `None`, modelled as a
list with the head as top; `_size` is a Python int counter. -/
structure ImmutableStack where
  items : List PyVal
  size : Int
deriving DecidableEq, Repr

/-- `ImmutableStack.push`: `self._items = (item, self._items)` builds a new
head pair over the old chain; `self._size += 1`. -/
def ImmutableStack.push (s : ImmutableStack) (item : PyVal) : ImmutableStack :=
  ⟨item :: s.items, s.size + 1⟩

/-- `ImmutableStack.pop`: `item, self._items = self._items` unpacks the
head pair; unpacking `None` raises `TypeError` (`none`) before `_size` is
touched. -/
def ImmutableStack.pop (s : ImmutableStack) : Option (PyVal × ImmutableStack) :=
  match s.items with
  | item :: rest => some (item, ⟨rest, s.size - 1⟩)
  | [] => none

/-- `ImmutableStack.__len__`: `return self._size`. -/
def ImmutableStack.len (s : ImmutableStack) : Int :=
  s.size

/-- `class NumericStack(Stack)`: only `push` is overridden, so its state is
a `Stack` state. `push` asserts `isinstance(item, (int, float))`
(`AssertionError` becomes `none`) and then calls `super().push(item)`. -/
def NumericStack.push (s : Stack) (item : PyVal) : Option Stack :=
  if item.isNumeric then some (Stack.push s item) else none

/-- `NumericStack.pop` is inherited unchanged from `Stack`. -/
def NumericStack.pop (s : Stack) : Option (PyVal × Stack) :=
  Stack.pop s

/-- `class NumericStackMixin`: `push` asserts
`isinstance(item, (float, int))` and then delegates to `super().push`,
whatever class the MRO places next; the embedding takes that next `push`
as a parameter. -/
def NumericStackMixin.push {σ : Type} (superPush : σ → PyVal → σ)
    (s : σ) (item : PyVal) : Option σ :=
  if item.isNumeric then some (superPush s item) else none

/-- `class ImmutableNumericStack(NumericStackMixin, ImmutableStack)`: by the
MRO, `push` is the mixin check followed by `ImmutableStack.push`. -/
def ImmutableNumericStack.push (s : ImmutableStack) (item : PyVal) :
    Option ImmutableStack :=
  NumericStackMixin.push ImmutableStack.push s item

/-- `ImmutableNumericStack.pop` is inherited from `ImmutableStack`. -/
def ImmutableNumericStack.pop (s : ImmutableStack) : Option (PyVal × ImmutableStack) :=
  ImmutableStack.pop s

/-- `class _NumericStack(StackInterface)`: its own list, with the numeric
assertion on `push`. -/
structure UNumericStack where
  items : List PyVal
deriving DecidableEq, Repr

/-- `_NumericStack.push`: assert numeric, then `self._items.append(item)`. -/
def UNumericStack.push (s : UNumericStack) (item : PyVal) : Option UNumericStack :=
  if item.isNumeric then some ⟨s.items ++ [item]⟩ else none

/-- `_NumericStack.pop`: `return self._items.pop()`. -/
def UNumericStack.pop (s : UNumericStack) : Option (PyVal × UNumericStack) :=
  match s.items.getLast? with
  | some v => some (v, ⟨s.items.dropLast⟩)
  | none => none

/-- `_NumericStack.__len__`. -/
def UNumericStack.len (s : UNumericStack) : Nat :=
  s.items.length

/-- `class _ImmutableNumericStack()`: the hand-fused immutable numeric
stack; note it inherits from no one, in particular not from
`StackInterface`. -/
structure UImmutableNumericStack where
  items : List PyVal
  size : Int
deriving DecidableEq, Repr

/-- `_ImmutableNumericStack.push`: assert numeric, then build the new head
pair and bump `_size`. -/
def UImmutableNumericStack.push (s : UImmutableNumericStack) (item : PyVal) :
    Option UImmutableNumericStack :=
  if item.isNumeric then some ⟨item :: s.items, s.size + 1⟩ else none

/-- `_ImmutableNumericStack.pop`. -/
def UImmutableNumericStack.pop (s : UImmutableNumericStack) :
    Option (PyVal × UImmutableNumericStack) :=
  match s.items with
  | item :: rest => some (item, ⟨rest, s.size - 1⟩)
  | [] => none

/-- `_ImmutableNumericStack.__len__`. -/
def UImmutableNumericStack.len (s : UImmutableNumericStack) : Int :=
  s.size

/-! ## Class hierarchy

The classes of the file and their direct base classes, for
`Calculator.__init__`'s `assert isinstance(stack, StackInterface)`. -/

/-- The stack classes declared in the file (and the abstract interface and
the mixin). -/
inductive PyClass where
  | stackInterface
  | stack
  | immutableStack
  | uNumericStack
  | numericStack
  | numericStackMixin
  | immutableNumericStack
  | uImmutableNumericStack
deriving DecidableEq, Repr

/-- Direct base classes, read off each `class` statement of the source
(`class Stack(StackInterface)`, `class NumericStack(Stack)`,
`class ImmutableNumericStack(NumericStackMixin, ImmutableStack)`,
`class _ImmutableNumericStack()`, ...). -/
def PyClass.bases : PyClass → List PyClass
  | .stackInterface => []
  | .stack => [.stackInterface]
  | .immutableStack => [.stackInterface]
  | .uNumericStack => [.stackInterface]
  | .numericStack => [.stack]
  | .numericStackMixin => []
  | .immutableNumericStack => [.numericStackMixin, .immutableStack]
  | .uImmutableNumericStack => []

/-- Ancestors of a class up to a given depth (the hierarchy has depth at
most 2, so any fuel of at least 3 computes the full ancestor set). -/
def PyClass.ancestors : Nat → PyClass → List PyClass
  | 0, c => [c]
  | n + 1, c => c :: (PyClass.bases c).flatMap (PyClass.ancestors n)

/-- Python `isinstance(x, C)` for an instance of class `c`. -/
def PyClass.isinstance (c target : PyClass) : Bool :=
  target ∈ PyClass.ancestors 8 c

/-! ## Calculator -/

/-- `class Calculator`: holds exactly one injected stack.  The value-level
behaviour is modelled over the default `Stack()` (the variant every
arithmetic claim exercises); the construction-time `isinstance` assertion
is modelled separately by `Calculator.init`. -/
structure Calculator where
  stack : Stack
deriving DecidableEq, Repr

/-- `Calculator.__init__(self, stack=None)`: default the stack to
`Stack()`, then `assert isinstance(stack, StackInterface)` — an
`AssertionError` (`none`) when the supplied object's class does not
inherit from `StackInterface`.  Returns the class of the accepted stack. -/
def Calculator.init (stackArg : Option PyClass) : Option PyClass :=
  let st := stackArg.getD .stack
  if PyClass.isinstance st .stackInterface then some st else none

/-- `Calculator.push`: delegation to the owned stack. -/
def Calculator.push (c : Calculator) (v : PyVal) : Calculator :=
  ⟨c.stack.push v⟩

/-- `Calculator.pop`: delegation to the owned stack. -/
def Calculator.pop (c : Calculator) : Option (PyVal × Calculator) :=
  (c.stack.pop).map fun vs => (vs.1, ⟨vs.2⟩)

/-- `Calculator.add`: `right = self.pop(); left = self.pop();
self.push(left + right)`. -/
def Calculator.add (c : Calculator) : Option Calculator := do
  let (right, c1) ← c.pop
  let (left, c2) ← c1.pop
  let v ← pyAdd left right
  pure (c2.push v)

/-- `Calculator.sub`: pops right then left, pushes `left - right`. -/
def Calculator.sub (c : Calculator) : Option Calculator := do
  let (right, c1) ← c.pop
  let (left, c2) ← c1.pop
  let v ← pySub left right
  pure (c2.push v)

/-- `Calculator.mul`: pops right then left, pushes `right * left` (the
source writes the product in that order). -/
def Calculator.mul (c : Calculator) : Option Calculator := do
  let (right, c1) ← c.pop
  let (left, c2) ← c1.pop
  let v ← pyMul right left
  pure (c2.push v)

/-- `Calculator.div`: pops right then left, pushes `left / right` (true
division). -/
def Calculator.div (c : Calculator) : Option Calculator := do
  let (right, c1) ← c.pop
  let (left, c2) ← c1.pop
  let v ← pyDiv left right
  pure (c2.push v)

/-! ## StackMachine -/

/-- The instruction tuples the machine dispatches on: `('push', v)`,
`('pop',)`, `('add',)`, `('sub',)`, `('mul',)`, `('div',)` — the method
names `getattr(self.calc, op)` can reach in the source's dynamic
dispatch. -/
inductive Instr where
  | push (v : PyVal)
  | pop
  | add
  | sub
  | mul
  | div
deriving DecidableEq, Repr

/-- One loop iteration of `StackMachine.run`:
`getattr(self.calc, op)(*args)` — the return value, if any, is
discarded. -/
def execInstr (c : Calculator) : Instr → Option Calculator
  | .push v => some (c.push v)
  | .pop => (c.pop).map Prod.snd
  | .add => c.add
  | .sub => c.sub
  | .mul => c.mul
  | .div => c.div

/-- The `for op, *args in instructions:` loop of `StackMachine.run`,
propagating the first failing instruction's error. -/
def runLoop : List Instr → Calculator → Option Calculator
  | [], c => some c
  | i :: rest, c => execInstr c i >>= runLoop rest

/-- `StackMachine.run`: `StackMachine.__init__` builds a fresh
`Calculator()` over an empty default `Stack()`; `run` executes the loop
and then ends with `return self.calc.pop()`. -/
def StackMachine.run (instructions : List Instr) : Option PyVal := do
  let c ← runLoop instructions ⟨⟨[]⟩⟩
  let (v, _) ← c.pop
  pure v

/-! ## The compiler: `ast` trees and `generate` -/

/-- The Python `ast` node kinds `generate` inspects: `ast.Num`, the four
operator nodes `ast.Add`, `ast.Sub`, `ast.Mult`, `ast.Div`, `ast.BinOp`
(whose `op` field is an operator node), and `ast.Expression`. -/
inductive AstNode where
  | num (n : PyVal)
  | addOp
  | subOp
  | multOp
  | divOp
  | binOp (left : AstNode) (op : AstNode) (right : AstNode)
  | expression (body : AstNode)
deriving DecidableEq, Repr

/-- `generate(node, code)` from the source, appending to `code` in place:
`ast.Num` appends `('push', node.n)`; the operator cases append — exactly
as the source writes them — `('add',)` for `ast.Add`, `ast.Sub`,
`ast.Mult` AND `ast.Div` alike; `ast.BinOp` recurses on `left`, then
`right`, then `op`; `ast.Expression` recurses on `body`. -/
def generate : AstNode → List Instr → List Instr
  | .num n, code => code ++ [.push n]
  | .addOp, code => code ++ [.add]
  | .subOp, code => code ++ [.add]
  | .multOp, code => code ++ [.add]
  | .divOp, code => code ++ [.add]
  | .binOp left op right, code => generate op (generate right (generate left code))
  | .expression body, code => generate body code

/-- Modelled from the spec: the parser is Python's standard-library
`ast.parse` (not part of this repository).  Under the spec's grammar —
standard precedence, parenthesised grouping — the text `"2*(3+4)"` parses
to this tree. -/
def tree2times3plus4 : AstNode :=
  .expression (.binOp (.num (.int 2)) .multOp
    (.binOp (.num (.int 3)) .addOp (.num (.int 4))))

/-- Modelled from the spec: `ast.parse` applied to
`"1.0 + (2 * (3 - (4 / (5 + (6 * (7 - (8 / 9)))))))"`, the expression of
`parse_challenge`, parses to this fully parenthesised tree. -/
def treeChallenge : AstNode :=
  .expression (.binOp (.num (.float 1)) .addOp
    (.binOp (.num (.int 2)) .multOp
      (.binOp (.num (.int 3)) .subOp
        (.binOp (.num (.int 4)) .divOp
          (.binOp (.num (.int 5)) .addOp
            (.binOp (.num (.int 6)) .multOp
              (.binOp (.num (.int 7)) .subOp
                (.binOp (.num (.int 8)) .divOp (.num (.int 9))))))))))

/-! ## Branching scenario for the persistent stack

Two `ImmutableStack` objects coexisting in a two-cell store, as in the
spec's branching test: each operation rewrites only its own cell, while
the chains themselves are immutable tuple values. -/

/-- A store holding two stack objects. -/
structure TwoVersions where
  v1 : ImmutableStack
  v2 : ImmutableStack
deriving DecidableEq, Repr

/-- Branch the two cells from a common ancestor state by pushing `x` on
the first and `y` on the second. -/
def TwoVersions.branch (s0 : ImmutableStack) (x y : PyVal) : TwoVersions :=
  ⟨s0.push x, s0.push y⟩

/-- Pop the first object; only the first cell is rewritten. -/
def TwoVersions.pop1 (h : TwoVersions) : Option (PyVal × TwoVersions) :=
  h.v1.pop.map fun xs => (xs.1, ⟨xs.2, h.v2⟩)

/-- Pop the second object; only the second cell is rewritten. -/
def TwoVersions.pop2 (h : TwoVersions) : Option (PyVal × TwoVersions) :=
  h.v2.pop.map fun xs => (xs.1, ⟨h.v1, xs.2⟩)

/-! ## Helper lemmas -/

/-- Popping after a push on the array-backed stack returns the pushed
value and the previous state. -/
theorem Stack.pop_push (s : Stack) (a : PyVal) : (s.push a).pop = some (a, s) := by
  simp [Stack.pop, Stack.push]

/-- Popping a stack whose item list ends in `a` returns `a` and the
prefix. -/
theorem Stack.pop_concat (l : List PyVal) (a : PyVal) :
    Stack.pop ⟨l ++ [a]⟩ = some (a, ⟨l⟩) := by
  simp [Stack.pop]

/-- Calculator-level version of `Stack.pop_concat`. -/
theorem Calculator.calc_pop_concat (l : List PyVal) (a : PyVal) :
    Calculator.pop ⟨⟨l ++ [a]⟩⟩ = some (a, ⟨⟨l⟩⟩) := by
  simp [Calculator.pop, Stack.pop_concat]

/-- Popping after a push on the persistent stack returns the pushed value
and the previous state. -/
theorem ImmutableStack.imm_pop_push (s : ImmutableStack) (a : PyVal) :
    (s.push a).pop = some (a, s) := by
  simp [ImmutableStack.pop, ImmutableStack.push]

/-- Popping after a push on `_NumericStack`. -/
theorem UNumericStack.unumeric_pop_concat (l : List PyVal) (a : PyVal) :
    UNumericStack.pop ⟨l ++ [a]⟩ = some (a, ⟨l⟩) := by
  simp [UNumericStack.pop]

/-- Popping the fused `_ImmutableNumericStack` after a push-shaped state. -/
theorem UImmutableNumericStack.pop_cons (l : List PyVal) (a : PyVal) (n : Int) :
    UImmutableNumericStack.pop ⟨a :: l, n + 1⟩ = some (a, ⟨l, n⟩) := by
  simp [UImmutableNumericStack.pop]

/-- Python `*` is commutative on the embedded value domain. -/
theorem pyMul_comm (a b : PyVal) : pyMul a b = pyMul b a := by
  cases a <;> cases b <;> simp [pyMul, mul_comm]

/-! ## Claims -/

/-- Claim C1: `generate` does order a `BinOp`'s output as left, then
right, then one opcode for the operator — but the operator-to-opcode
mapping is NOT injective: the source emits the `add` opcode for `Add`,
`Sub`, `Mult` and `Div` alike, so `Sub`, `Mult` and `Div` collapse onto
`Add`'s opcode. -/
theorem C1_opcode_mapping_collapses :
    generate .addOp [] = [Instr.add] ∧
    generate .subOp [] = [Instr.add] ∧
    generate .multOp [] = [Instr.add] ∧
    generate .divOp [] = [Instr.add] ∧
    (∀ (left op right : AstNode) (code : List Instr),
      generate (.binOp left op right) code
        = generate op (generate right (generate left code))) :=
  ⟨rfl, rfl, rfl, rfl, fun _ _ _ _ => rfl⟩

/-- Claim C2: because `generate` compiles `*`, `-` and `/` to the `add`
opcode, compiling and running `"2*(3+4)"` yields `9`, not the claimed
`14`; and the challenge expression yields `45.0` (the sum of all its
literals), not the real-arithmetic value `851/125`. -/
theorem C2_pipeline_results_wrong :
    StackMachine.run (generate tree2times3plus4 []) = some (.int 9) ∧
    StackMachine.run (generate tree2times3plus4 []) ≠ some (.int 14) ∧
    StackMachine.run (generate treeChallenge []) = some (.float 45) ∧
    StackMachine.run (generate treeChallenge []) ≠ some (.float (851 / 125)) := by
  refine ⟨by decide, by decide, ?_, ?_⟩
  · norm_num [StackMachine.run, generate, runLoop, execInstr, Calculator.add,
      Calculator.pop, Calculator.push, Stack.pop, Stack.push, pyAdd, bind, Option.bind]
  · norm_num [StackMachine.run, generate, runLoop, execInstr, Calculator.add,
      Calculator.pop, Calculator.push, Stack.pop, Stack.push, pyAdd, bind, Option.bind]

/-- Claim C3 counterexample: the program `[push 1, push 2]` leaves two
values on the stack after the instruction loop, yet `StackMachine.run`
succeeds, returning the top value `2` — it does not fail with any
malformed-program error. -/
theorem C3_two_values_left_no_error :
    runLoop [Instr.push (.int 1), Instr.push (.int 2)] ⟨⟨[]⟩⟩
        = some ⟨⟨[.int 1, .int 2]⟩⟩ ∧
    StackMachine.run [Instr.push (.int 1), Instr.push (.int 2)] = some (.int 2) ∧
    StackMachine.run [Instr.push (.int 1), Instr.push (.int 2)] ≠ none := by
  refine ⟨by decide, by decide, by decide⟩

/-- Claim C3 amended: after the instruction loop completes in state `c`,
`StackMachine.run` simply pops and returns `c`'s top value: it succeeds
whenever at least one value remains — however many values remain, with no
residual-count check — and fails only when zero values remain, because
the final pop itself fails. -/
theorem C3_run_returns_top_unchecked (prog : List Instr) (c : Calculator)
    (h : runLoop prog ⟨⟨[]⟩⟩ = some c) :
    StackMachine.run prog = c.stack.items.getLast? := by
  cases hl : c.stack.items.getLast? <;>
    simp [StackMachine.run, h, Calculator.pop, Stack.pop, hl, bind, Option.bind]

/-- Claim C3 amended, witness: for `[push 1, push 2, push 3]` the loop
ends with three values and `run` returns the last of them. -/
theorem C3_run_returns_top_unchecked_witness :
    StackMachine.run [Instr.push (.int 1), Instr.push (.int 2), Instr.push (.int 3)]
      = ([PyVal.int 1, PyVal.int 2, PyVal.int 3] : List PyVal).getLast? :=
  C3_run_returns_top_unchecked _ ⟨⟨[.int 1, .int 2, .int 3]⟩⟩ (by decide)

/-- Claim C4: branching two persistent-stack versions from a common
ancestor `s0` by pushing `x` and `y`, each branch keeps the old chain as
its tail (structural sharing), and popping one branch returns its pushed
value while leaving the other branch's cell untouched — its top value and
length are exactly those of `push s0 _`. -/
theorem C4_persistent_branches_independent (s0 : ImmutableStack) (x y : PyVal) :
    ((TwoVersions.branch s0 x y).v1.items.tail = s0.items ∧
     (TwoVersions.branch s0 x y).v2.items.tail = s0.items) ∧
    (∃ b1, (TwoVersions.branch s0 x y).pop1 = some (x, b1) ∧
      b1.v2 = (TwoVersions.branch s0 x y).v2 ∧
      b1.v2.items.head? = some y ∧ b1.v2.len = s0.len + 1) ∧
    (∃ b2, (TwoVersions.branch s0 x y).pop2 = some (y, b2) ∧
      b2.v1 = (TwoVersions.branch s0 x y).v1 ∧
      b2.v1.items.head? = some x ∧ b2.v1.len = s0.len + 1) := by
  refine ⟨⟨rfl, rfl⟩, ⟨⟨s0, s0.push y⟩, ?_, rfl, rfl, rfl⟩,
    ⟨⟨s0.push x, s0⟩, ?_, rfl, rfl, rfl⟩⟩
  · simp [TwoVersions.branch, TwoVersions.pop1, ImmutableStack.imm_pop_push]
  · simp [TwoVersions.branch, TwoVersions.pop2, ImmutableStack.imm_pop_push]

/-- Claim C5: on every stack variant, popping a stack of length 0 fails
(an error, `none`): it never returns a value and never silently succeeds.
For the chain-based variants, whose `__len__` reads the `_size` counter,
the hypothesis ties the counter to the chain as every reachable state
does. -/
theorem C5_pop_empty_fails :
    (∀ s : Stack, s.len = 0 → s.pop = none) ∧
    (∀ s : ImmutableStack, s.size = s.items.length → s.len = 0 → s.pop = none) ∧
    (∀ s : Stack, s.len = 0 → NumericStack.pop s = none) ∧
    (∀ s : UNumericStack, s.len = 0 → s.pop = none) ∧
    (∀ s : ImmutableStack, s.size = s.items.length →
      s.len = 0 → ImmutableNumericStack.pop s = none) ∧
    (∀ s : UImmutableNumericStack, s.size = s.items.length → s.len = 0 → s.pop = none) := by
  have hstack : ∀ s : Stack, s.len = 0 → s.pop = none := by
    intro s h
    have : s.items = [] := List.length_eq_zero.mp h
    simp [Stack.pop, this]
  have himm : ∀ s : ImmutableStack, s.size = s.items.length → s.len = 0 → s.pop = none := by
    intro s hinv h
    have hlen : s.items.length = 0 := by
      have : (s.items.length : Int) = 0 := by
        rw [← hinv]; exact h
      exact_mod_cast this
    have : s.items = [] := List.length_eq_zero.mp hlen
    simp [ImmutableStack.pop, this]
  refine ⟨hstack, himm, fun s h => hstack s h, ?_, fun s hinv h => himm s hinv h, ?_⟩
  · intro s h
    have : s.items = [] := List.length_eq_zero.mp h
    simp [UNumericStack.pop, this]
  · intro s hinv h
    have hlen : s.items.length = 0 := by
      have : (s.items.length : Int) = 0 := by
        rw [← hinv]; exact h
      exact_mod_cast this
    have : s.items = [] := List.length_eq_zero.mp hlen
    simp [UImmutableNumericStack.pop, this]

/-- Claim C5 witness: each variant's concrete empty stack has length 0 and
fails to pop. -/
theorem C5_pop_empty_fails_witness :
    Stack.pop ⟨[]⟩ = none ∧
    ImmutableStack.pop ⟨[], 0⟩ = none ∧
    NumericStack.pop ⟨[]⟩ = none ∧
    UNumericStack.pop ⟨[]⟩ = none ∧
    ImmutableNumericStack.pop ⟨[], 0⟩ = none ∧
    UImmutableNumericStack.pop ⟨[], 0⟩ = none :=
  ⟨C5_pop_empty_fails.1 ⟨[]⟩ rfl,
   C5_pop_empty_fails.2.1 ⟨[], 0⟩ rfl rfl,
   C5_pop_empty_fails.2.2.1 ⟨[]⟩ rfl,
   C5_pop_empty_fails.2.2.2.1 ⟨[]⟩ rfl,
   C5_pop_empty_fails.2.2.2.2.1 ⟨[], 0⟩ rfl rfl,
   C5_pop_empty_fails.2.2.2.2.2 ⟨[], 0⟩ rfl rfl⟩

/-- Evaluating `Calculator.add` on a stack ending in `left, right`. -/
theorem Calculator.add_concat (rest : List PyVal) (left right : PyVal) :
    Calculator.add ⟨⟨rest ++ [left, right]⟩⟩
      = (pyAdd left right).map fun v => ⟨⟨rest ++ [v]⟩⟩ := by
  have h2 : (⟨⟨rest ++ [left, right]⟩⟩ : Calculator)
      = ⟨⟨(rest ++ [left]) ++ [right]⟩⟩ := by simp
  rw [h2]
  simp only [Calculator.add, Calculator.calc_pop_concat, bind, Option.bind]
  cases pyAdd left right <;> simp [Calculator.push, Stack.push]

/-- Evaluating `Calculator.sub` on a stack ending in `left, right`. -/
theorem Calculator.sub_concat (rest : List PyVal) (left right : PyVal) :
    Calculator.sub ⟨⟨rest ++ [left, right]⟩⟩
      = (pySub left right).map fun v => ⟨⟨rest ++ [v]⟩⟩ := by
  have h2 : (⟨⟨rest ++ [left, right]⟩⟩ : Calculator)
      = ⟨⟨(rest ++ [left]) ++ [right]⟩⟩ := by simp
  rw [h2]
  simp only [Calculator.sub, Calculator.calc_pop_concat, bind, Option.bind]
  cases pySub left right <;> simp [Calculator.push, Stack.push]

/-- Evaluating `Calculator.mul` on a stack ending in `left, right`; the
source multiplies in the order `right * left`. -/
theorem Calculator.mul_concat (rest : List PyVal) (left right : PyVal) :
    Calculator.mul ⟨⟨rest ++ [left, right]⟩⟩
      = (pyMul right left).map fun v => ⟨⟨rest ++ [v]⟩⟩ := by
  have h2 : (⟨⟨rest ++ [left, right]⟩⟩ : Calculator)
      = ⟨⟨(rest ++ [left]) ++ [right]⟩⟩ := by simp
  rw [h2]
  simp only [Calculator.mul, Calculator.calc_pop_concat, bind, Option.bind]
  cases pyMul right left <;> simp [Calculator.push, Stack.push]

/-- Evaluating `Calculator.div` on a stack ending in `left, right`. -/
theorem Calculator.div_concat (rest : List PyVal) (left right : PyVal) :
    Calculator.div ⟨⟨rest ++ [left, right]⟩⟩
      = (pyDiv left right).map fun v => ⟨⟨rest ++ [v]⟩⟩ := by
  have h2 : (⟨⟨rest ++ [left, right]⟩⟩ : Calculator)
      = ⟨⟨(rest ++ [left]) ++ [right]⟩⟩ := by simp
  rw [h2]
  simp only [Calculator.div, Calculator.calc_pop_concat, bind, Option.bind]
  cases pyDiv left right <;> simp [Calculator.push, Stack.push]

/-- Addition is defined on any two numeric values. -/
theorem pyAdd_numeric {a b : PyVal} (ha : a.isNumeric = true)
    (hb : b.isNumeric = true) : ∃ v, pyAdd a b = some v := by
  cases a <;> cases b <;> simp_all [PyVal.isNumeric, pyAdd]

/-- Subtraction is defined on any two numeric values. -/
theorem pySub_numeric {a b : PyVal} (ha : a.isNumeric = true)
    (hb : b.isNumeric = true) : ∃ v, pySub a b = some v := by
  cases a <;> cases b <;> simp_all [PyVal.isNumeric, pySub]

/-- Multiplication is defined on any two numeric values. -/
theorem pyMul_numeric {a b : PyVal} (ha : a.isNumeric = true)
    (hb : b.isNumeric = true) : ∃ v, pyMul a b = some v := by
  cases a <;> cases b <;> simp_all [PyVal.isNumeric, pyMul]

/-- Division is defined on any two numeric values with a non-zero
divisor. -/
theorem pyDiv_numeric {a b : PyVal} (ha : a.isNumeric = true)
    (hb : b.isNumeric = true) (hz : b.toRat ≠ some 0) :
    ∃ v, pyDiv a b = some v := by
  obtain ⟨x, hx⟩ : ∃ x, a.toRat = some x := by
    cases a <;> simp_all [PyVal.isNumeric, PyVal.toRat]
  obtain ⟨y, hy⟩ : ∃ y, b.toRat = some y := by
    cases b <;> simp_all [PyVal.isNumeric, PyVal.toRat]
  have hy0 : y ≠ 0 := fun h => hz (by rw [hy, h])
  exact ⟨.float (x / y), by simp [pyDiv, hx, hy, hy0]⟩

/-- Claim C6: with `left` and `right` the two topmost values (both
numeric), the first pop yields `right` and the second `left`; each
operator pops exactly those two, pushes the single value `left OP right`
(for `mul`, the source's `right * left` equals `left * right`), and
leaves the rest of the stack unchanged; for `div` this holds whenever the
divisor is non-zero. -/
theorem C6_operators_pop_order (rest : List PyVal) (left right : PyVal)
    (hl : left.isNumeric = true) (hr : right.isNumeric = true) :
    Calculator.pop ⟨⟨rest ++ [left, right]⟩⟩ = some (right, ⟨⟨rest ++ [left]⟩⟩) ∧
    Calculator.pop ⟨⟨rest ++ [left]⟩⟩ = some (left, ⟨⟨rest⟩⟩) ∧
    (∃ v, pyAdd left right = some v ∧
      Calculator.add ⟨⟨rest ++ [left, right]⟩⟩ = some ⟨⟨rest ++ [v]⟩⟩) ∧
    (∃ v, pySub left right = some v ∧
      Calculator.sub ⟨⟨rest ++ [left, right]⟩⟩ = some ⟨⟨rest ++ [v]⟩⟩) ∧
    (∃ v, pyMul left right = some v ∧
      Calculator.mul ⟨⟨rest ++ [left, right]⟩⟩ = some ⟨⟨rest ++ [v]⟩⟩) ∧
    (right.toRat ≠ some 0 → ∃ v, pyDiv left right = some v ∧
      Calculator.div ⟨⟨rest ++ [left, right]⟩⟩ = some ⟨⟨rest ++ [v]⟩⟩) := by
  obtain ⟨va, hva⟩ := pyAdd_numeric hl hr
  obtain ⟨vs, hvs⟩ := pySub_numeric hl hr
  obtain ⟨vm, hvm⟩ := pyMul_numeric hl hr
  refine ⟨?_, Calculator.calc_pop_concat rest left,
    ⟨va, hva, by rw [Calculator.add_concat, hva]; rfl⟩,
    ⟨vs, hvs, by rw [Calculator.sub_concat, hvs]; rfl⟩,
    ⟨vm, hvm, by rw [Calculator.mul_concat, pyMul_comm, hvm]; rfl⟩, ?_⟩
  · have h2 : (⟨⟨rest ++ [left, right]⟩⟩ : Calculator)
        = ⟨⟨(rest ++ [left]) ++ [right]⟩⟩ := by simp
    rw [h2, Calculator.calc_pop_concat]
  · intro hz
    obtain ⟨vd, hvd⟩ := pyDiv_numeric hl hr hz
    exact ⟨vd, hvd, by rw [Calculator.div_concat, hvd]; rfl⟩

/-- Claim C6 witness: the concrete instance with `left = 10`,
`right = 4` on a one-element remainder stack. -/
theorem C6_operators_pop_order_witness :
    Calculator.pop ⟨⟨[.int 7] ++ [.int 10, .int 4]⟩⟩
        = some (.int 4, ⟨⟨[.int 7] ++ [.int 10]⟩⟩) ∧
    Calculator.pop ⟨⟨[.int 7] ++ [.int 10]⟩⟩ = some (.int 10, ⟨⟨[.int 7]⟩⟩) ∧
    (∃ v, pyAdd (.int 10) (.int 4) = some v ∧
      Calculator.add ⟨⟨[.int 7] ++ [.int 10, .int 4]⟩⟩ = some ⟨⟨[.int 7] ++ [v]⟩⟩) ∧
    (∃ v, pySub (.int 10) (.int 4) = some v ∧
      Calculator.sub ⟨⟨[.int 7] ++ [.int 10, .int 4]⟩⟩ = some ⟨⟨[.int 7] ++ [v]⟩⟩) ∧
    (∃ v, pyMul (.int 10) (.int 4) = some v ∧
      Calculator.mul ⟨⟨[.int 7] ++ [.int 10, .int 4]⟩⟩ = some ⟨⟨[.int 7] ++ [v]⟩⟩) ∧
    ((PyVal.int 4).toRat ≠ some 0 → ∃ v, pyDiv (.int 10) (.int 4) = some v ∧
      Calculator.div ⟨⟨[.int 7] ++ [.int 10, .int 4]⟩⟩ = some ⟨⟨[.int 7] ++ [v]⟩⟩) :=
  C6_operators_pop_order [.int 7] (.int 10) (.int 4) rfl rfl

/-- Claim C7: `div` divides `left` by `right` with true division — two
int operands produce a float quotient, in particular `10 / 5` pushes the
float `2.0` — and fails (`ZeroDivisionError`, modelled `none`) whenever
the first-popped, right operand is zero. -/
theorem C7_div_float_and_zero (rest : List PyVal) (a b : Int) (left : PyVal)
    (hb : b ≠ 0) :
    Calculator.div ⟨⟨rest ++ [.int a, .int b]⟩⟩
        = some ⟨⟨rest ++ [.float ((a : Rat) / (b : Rat))]⟩⟩ ∧
    Calculator.div ⟨⟨rest ++ [left, .int 0]⟩⟩ = none ∧
    Calculator.div ⟨⟨rest ++ [left, .float 0]⟩⟩ = none ∧
    ((((⟨⟨[]⟩⟩ : Calculator).push (.int 10)).push (.int 5)).div
        = some ⟨⟨[.float 2]⟩⟩) ∧
    Calculator.pop ⟨⟨[.float 2]⟩⟩ = some (.float 2, ⟨⟨[]⟩⟩) := by
  refine ⟨?_, ?_, ?_, ?_, rfl⟩
  · simp [Calculator.div_concat, pyDiv, PyVal.toRat, hb]
  · cases left <;> simp [Calculator.div_concat, pyDiv, PyVal.toRat]
  · cases left <;> simp [Calculator.div_concat, pyDiv, PyVal.toRat]
  · have h : (((⟨⟨[]⟩⟩ : Calculator).push (.int 10)).push (.int 5))
        = ⟨⟨([] : List PyVal) ++ [.int 10, .int 5]⟩⟩ := rfl
    rw [h, Calculator.div_concat]
    norm_num [pyDiv, PyVal.toRat]

/-- Claim C7 witness: the instance at `a = 10`, `b = 5`,
`left = "x"`. -/
theorem C7_div_float_and_zero_witness :
    Calculator.div ⟨⟨[] ++ [.int 10, .int 5]⟩⟩
        = some ⟨⟨[] ++ [.float ((10 : Rat) / (5 : Rat))]⟩⟩ ∧
    Calculator.div ⟨⟨[] ++ [.str "x", .int 0]⟩⟩ = none ∧
    Calculator.div ⟨⟨[] ++ [.str "x", .float 0]⟩⟩ = none ∧
    ((((⟨⟨[]⟩⟩ : Calculator).push (.int 10)).push (.int 5)).div
        = some ⟨⟨[.float 2]⟩⟩) ∧
    Calculator.pop ⟨⟨[.float 2]⟩⟩ = some (.float 2, ⟨⟨[]⟩⟩) :=
  C7_div_float_and_zero [] 10 5 (.str "x") (by norm_num)

/-- Claim C8: the numeric subclass and the numeric mixin reject a
non-numeric push with the assertion error (`none`), accept every int and
every float, and on success delegate unchanged to the wrapped push — the
mixin over an arbitrary inner push, and in particular over
`ImmutableStack.push`. -/
theorem C8_numeric_push_validation :
    (∀ (s : Stack) (v : PyVal), v.isNumeric = false → NumericStack.push s v = none) ∧
    (∀ (s : Stack) (n : Int), NumericStack.push s (.int n) = some (s.push (.int n))) ∧
    (∀ (s : Stack) (q : Rat), NumericStack.push s (.float q) = some (s.push (.float q))) ∧
    (∀ (σ : Type) (inner : σ → PyVal → σ) (st : σ) (v : PyVal),
      (v.isNumeric = false → NumericStackMixin.push inner st v = none) ∧
      (v.isNumeric = true → NumericStackMixin.push inner st v = some (inner st v))) ∧
    (∀ (s : ImmutableStack) (v : PyVal), v.isNumeric = false →
      ImmutableNumericStack.push s v = none) ∧
    (∀ (s : ImmutableStack) (n : Int),
      ImmutableNumericStack.push s (.int n) = some (s.push (.int n))) ∧
    (∀ (s : ImmutableStack) (q : Rat),
      ImmutableNumericStack.push s (.float q) = some (s.push (.float q))) := by
  refine ⟨fun s v h => by simp [NumericStack.push, h],
    fun s n => by simp [NumericStack.push, PyVal.isNumeric],
    fun s q => by simp [NumericStack.push, PyVal.isNumeric],
    fun σ inner st v => ⟨fun h => by simp [NumericStackMixin.push, h],
      fun h => by simp [NumericStackMixin.push, h]⟩,
    fun s v h => by simp [ImmutableNumericStack.push, NumericStackMixin.push, h],
    fun s n => by simp [ImmutableNumericStack.push, NumericStackMixin.push, PyVal.isNumeric],
    fun s q => by simp [ImmutableNumericStack.push, NumericStackMixin.push, PyVal.isNumeric]⟩

/-- Claim C8 witness: the string `"hello"` is rejected and the values `4`
and `3.5` are accepted, on the subclass and on the mixin over the
persistent stack. -/
theorem C8_numeric_push_validation_witness :
    NumericStack.push ⟨[]⟩ (.str "hello") = none ∧
    NumericStack.push ⟨[]⟩ (.int 4) = some (Stack.push ⟨[]⟩ (.int 4)) ∧
    NumericStack.push ⟨[]⟩ (.float (7 / 2)) = some (Stack.push ⟨[]⟩ (.float (7 / 2))) ∧
    ImmutableNumericStack.push ⟨[], 0⟩ (.str "hello") = none ∧
    ImmutableNumericStack.push ⟨[], 0⟩ (.int 4)
        = some (ImmutableStack.push ⟨[], 0⟩ (.int 4)) :=
  ⟨C8_numeric_push_validation.1 ⟨[]⟩ (.str "hello") rfl,
   C8_numeric_push_validation.2.1 ⟨[]⟩ 4,
   C8_numeric_push_validation.2.2.1 ⟨[]⟩ (7 / 2),
   C8_numeric_push_validation.2.2.2.2.1 ⟨[], 0⟩ (.str "hello") rfl,
   C8_numeric_push_validation.2.2.2.2.2.1 ⟨[], 0⟩ 4⟩

/-- Claim C9: on every variant and from every starting state, pushing `a`
then `b` and popping twice yields `b` first and `a` second, and the final
state's length equals the starting length; the numeric variants require
the pushed values to be numeric for the pushes to succeed. -/
theorem C9_push_push_pop_pop :
    (∀ (s : Stack) (a b : PyVal), ∃ s1 s2,
      ((s.push a).push b).pop = some (b, s1) ∧ s1.pop = some (a, s2) ∧
      s2.len = s.len) ∧
    (∀ (s : ImmutableStack) (a b : PyVal), ∃ s1 s2,
      ((s.push a).push b).pop = some (b, s1) ∧ s1.pop = some (a, s2) ∧
      s2.len = s.len) ∧
    (∀ (s : Stack) (a b : PyVal), a.isNumeric = true → b.isNumeric = true →
      ∃ s1 s2 t1 t2, NumericStack.push s a = some s1 ∧
        NumericStack.push s1 b = some s2 ∧ NumericStack.pop s2 = some (b, t1) ∧
        NumericStack.pop t1 = some (a, t2) ∧ t2.len = s.len) ∧
    (∀ (s : UNumericStack) (a b : PyVal), a.isNumeric = true → b.isNumeric = true →
      ∃ s1 s2 t1 t2, s.push a = some s1 ∧ s1.push b = some s2 ∧
        s2.pop = some (b, t1) ∧ t1.pop = some (a, t2) ∧ t2.len = s.len) ∧
    (∀ (s : ImmutableStack) (a b : PyVal), a.isNumeric = true → b.isNumeric = true →
      ∃ s1 s2 t1 t2, ImmutableNumericStack.push s a = some s1 ∧
        ImmutableNumericStack.push s1 b = some s2 ∧
        ImmutableNumericStack.pop s2 = some (b, t1) ∧
        ImmutableNumericStack.pop t1 = some (a, t2) ∧ t2.len = s.len) ∧
    (∀ (s : UImmutableNumericStack) (a b : PyVal),
      a.isNumeric = true → b.isNumeric = true →
      ∃ s1 s2 t1 t2, s.push a = some s1 ∧ s1.push b = some s2 ∧
        s2.pop = some (b, t1) ∧ t1.pop = some (a, t2) ∧ t2.len = s.len) := by
  refine ⟨fun s a b => ⟨s.push a, s, Stack.pop_push _ b, Stack.pop_push s a, rfl⟩,
    fun s a b => ⟨s.push a, s, ImmutableStack.imm_pop_push _ b,
      ImmutableStack.imm_pop_push s a, rfl⟩,
    fun s a b ha hb => ⟨s.push a, (s.push a).push b, s.push a, s,
      by simp [NumericStack.push, ha], by simp [NumericStack.push, hb],
      Stack.pop_push _ b, Stack.pop_push s a, rfl⟩,
    fun s a b ha hb => ⟨⟨s.items ++ [a]⟩, ⟨s.items ++ [a] ++ [b]⟩,
      ⟨s.items ++ [a]⟩, ⟨s.items⟩,
      by simp [UNumericStack.push, ha], by simp [UNumericStack.push, hb],
      UNumericStack.unumeric_pop_concat _ b, UNumericStack.unumeric_pop_concat _ a, rfl⟩,
    fun s a b ha hb => ⟨s.push a, (s.push a).push b, s.push a, s,
      by simp [ImmutableNumericStack.push, NumericStackMixin.push, ha],
      by simp [ImmutableNumericStack.push, NumericStackMixin.push, hb],
      ImmutableStack.imm_pop_push _ b, ImmutableStack.imm_pop_push s a, rfl⟩,
    fun s a b ha hb => ⟨⟨a :: s.items, s.size + 1⟩, ⟨b :: a :: s.items, s.size + 1 + 1⟩,
      ⟨a :: s.items, s.size + 1⟩, ⟨s.items, s.size⟩,
      by simp [UImmutableNumericStack.push, ha],
      by simp [UImmutableNumericStack.push, hb],
      UImmutableNumericStack.pop_cons _ b _, UImmutableNumericStack.pop_cons _ a _, rfl⟩⟩

/-- Claim C9 witness: each conjunct instantiated at a concrete non-empty
starting stack with `a = 1`, `b = 2`. -/
theorem C9_push_push_pop_pop_witness :
    (∃ s1 s2, ((Stack.push (Stack.push ⟨[.int 9]⟩ (.int 1)) (.int 2))).pop
        = some (.int 2, s1) ∧ s1.pop = some (.int 1, s2) ∧
        s2.len = (⟨[.int 9]⟩ : Stack).len) ∧
    (∃ s1 s2 t1 t2, UImmutableNumericStack.push ⟨[.int 9], 1⟩ (.int 1) = some s1 ∧
      s1.push (.int 2) = some s2 ∧ s2.pop = some (.int 2, t1) ∧
      t1.pop = some (.int 1, t2) ∧ t2.len = (⟨[.int 9], 1⟩ : UImmutableNumericStack).len) :=
  ⟨C9_push_push_pop_pop.1 ⟨[.int 9]⟩ (.int 1) (.int 2),
   C9_push_push_pop_pop.2.2.2.2.2 ⟨[.int 9], 1⟩ (.int 1) (.int 2) rfl rfl⟩

/-- Claim C10: `Calculator.__init__`'s `assert isinstance(stack,
StackInterface)` rejects the standalone `_ImmutableNumericStack`, which
inherits from nothing — even though its push/pop/length behave as a
correct stack — and an explicitly supplied stack is accepted exactly when
its class inherits from `StackInterface`. -/
theorem C10_init_requires_interface :
    Calculator.init (some .uImmutableNumericStack) = none ∧
    (∀ (s : UImmutableNumericStack) (v : PyVal), v.isNumeric = true →
      ∃ s1, s.push v = some s1 ∧ s1.pop = some (v, s) ∧ s1.len = s.len + 1) ∧
    (∀ c : PyClass, (Calculator.init (some c)).isSome
        = PyClass.isinstance c .stackInterface) := by
  refine ⟨rfl, ?_, ?_⟩
  · intro s v hv
    exact ⟨⟨v :: s.items, s.size + 1⟩, by simp [UImmutableNumericStack.push, hv],
      UImmutableNumericStack.pop_cons s.items v s.size, rfl⟩
  · intro c
    cases c <;> rfl

/-- Claim C10 witness: the rejected class at the concrete empty state with
value `1`, and the acceptance test at the classes `Stack` and
`_ImmutableNumericStack`. -/
theorem C10_init_requires_interface_witness :
    Calculator.init (some .uImmutableNumericStack) = none ∧
    (∃ s1, UImmutableNumericStack.push ⟨[], 0⟩ (.int 1) = some s1 ∧
      s1.pop = some (.int 1, (⟨[], 0⟩ : UImmutableNumericStack)) ∧
      s1.len = (⟨[], 0⟩ : UImmutableNumericStack).len + 1) ∧
    (Calculator.init (some .stack)).isSome
        = PyClass.isinstance .stack .stackInterface :=
  ⟨C10_init_requires_interface.1,
   C10_init_requires_interface.2.1 ⟨[], 0⟩ (.int 1) rfl,
   C10_init_requires_interface.2.2 .stack⟩

end Stacks
